import Mathlib

/-!
Shallow embedding of the cgo boundary layer in
`third_party/agfs/agfs-server/cmd/pybinding/main.go`.

The Go file exposes a mountable virtual filesystem to Python through C
exports.  Its own logic, modelled here, is: a handle table
(`handleMap` keyed by an `int64` generator `handleIDGen`), an error
side-channel (`errorBuffer` keyed by `errorIDGen`), and thin wrappers
that call backend methods and encode results as JSON documents.

Backend calls (methods of `mountablefs.MountableFS` and
`filesystem.FileHandle`, which live outside this repository snapshot)
are modelled as oracle inputs: a `FileHandle` value records what each
backend method would return, and path-level operations take the
backend result as an argument.  Go `int64` increments wrap; `wrap64`
makes the two's-complement wrap explicit.  Go maps are modelled as
functions `Int → Option _` (lookup of an absent key yields the zero
value, modelled by `Option.getD`).  The two `issued…` fields are
history (ghost) variables recording, newest first, the ids handed out
by `storeHandle` / `storeError`; they are written only where the
corresponding Go counter is incremented and never read by the code,
so they do not change any observable behaviour.
-/

namespace AGFS

/-- Upper bound of Go `int64`. -/
def int64Max : Int := 2 ^ 63 - 1

/-- Lower bound of Go `int64`. -/
def int64Min : Int := -(2 ^ 63)

/-- Two's-complement wraparound of Go `int64` arithmetic. -/
def wrap64 (x : Int) : Int := (x + 2 ^ 63) % 2 ^ 64 - 2 ^ 63

/-- File bytes; `[]byte` contents are opaque to the binding layer. -/
abbrev Bytes := List Nat

/-- Result of `ModTime.Format(time.RFC3339Nano)`: time values are
modelled by their RFC3339Nano rendering, which is the only way the
binding layer observes them. -/
structure GoTime where
  rfc3339Nano : String

/-- Mirrors `Format(time.RFC3339Nano)` on the modelled time value. -/
def GoTime.formatRFC3339Nano (t : GoTime) : String := t.rfc3339Nano

/-- The `FileInfo` fields the binding reads (`f.Name`, `f.Size`,
`f.Mode`, `f.ModTime`, `f.IsDir`). -/
structure FileInfo where
  name : String
  size : Int
  mode : Nat
  modTime : GoTime
  isDir : Bool

/-- Oracle for one `filesystem.FileHandle` backend object: each field
records the result the backend method would return when called by the
binding (`(n, err)` pairs with `err = none` for a nil Go error). -/
structure FileHandle where
  closeErr : Option String
  readF : Nat → Bytes × Option String
  readAtF : Nat → Int → Bytes × Option String
  writeF : Bytes → Int × Option String
  writeAtF : Bytes → Int → Int × Option String
  seekF : Int → Int → Int × Option String
  syncErr : Option String
  statF : FileInfo × Option String

/-- JSON documents produced by the binding's `fmt.Sprintf` /
`json.Marshal` calls. -/
inductive JValue where
  | jnull : JValue
  | jbool : Bool → JValue
  | jint : Int → JValue
  | jstr : String → JValue
  | jarr : List JValue → JValue
  | jobj : List (String × JValue) → JValue

/-- Keys of a JSON object (in construction order). -/
def jKeys : JValue → List String
  | JValue.jobj fields => fields.map Prod.fst
  | _ => []

/-- Field lookup in a JSON object. -/
def jLookup (v : JValue) (k : String) : Option JValue :=
  match v with
  | JValue.jobj fields => (fields.find? (fun p => p.fst = k)).map Prod.snd
  | _ => none

/-- The `{"error_id": N}` document produced by
`fmt.Sprintf("{\"error_id\": %d}", errorID)`. -/
def errJson (errorID : Int) : JValue :=
  JValue.jobj [("error_id", JValue.jint errorID)]

/-- The `{"message": ...}` document. -/
def msgJson (m : String) : JValue :=
  JValue.jobj [("message", JValue.jstr m)]

/-- Per-mount configuration, Go `map[string]interface{}`. -/
abbrev Config := List (String × JValue)

/-- The mutable package-level state of `main.go`: `handleIDGen`,
`handleMap`, `errorIDGen`, `errorBuffer`, plus the two ghost history
lists described in the file header. -/
structure BindingState where
  handleIDGen : Int
  handleMap : Int → Option FileHandle
  errorIDGen : Int
  errorBuffer : Int → Option String
  issuedHandleIDs : List Int
  issuedErrorIDs : List Int

/-- Initial state: both generators zero, both maps empty. -/
def initState : BindingState :=
  { handleIDGen := 0
    handleMap := fun _ => none
    errorIDGen := 0
    errorBuffer := fun _ => none
    issuedHandleIDs := []
    issuedErrorIDs := [] }

/-- Go `storeError`: returns 0 for a nil error; otherwise increments
`errorIDGen` (with `int64` wrap), stores the message under the new id
and returns the id. -/
def storeError (st : BindingState) (err : Option String) : Int × BindingState :=
  match err with
  | none => (0, st)
  | some msg =>
      let id := wrap64 (st.errorIDGen + 1)
      (id, { st with
              errorIDGen := id
              errorBuffer := fun k => if k = id then some msg else st.errorBuffer k
              issuedErrorIDs := id :: st.issuedErrorIDs })

/-- Go `getAndClearError`: id 0 short-circuits to the empty string;
otherwise the stored message (zero value `""` when absent) is
returned and the entry deleted. -/
def getAndClearError (st : BindingState) (id : Int) : String × BindingState :=
  if id = 0 then ("", st)
  else
    let msg := (st.errorBuffer id).getD ""
    (msg, { st with errorBuffer := fun k => if k = id then none else st.errorBuffer k })

/-- Go `storeHandle`: increments `handleIDGen` (with `int64` wrap),
stores the handle under the new id and returns the id. -/
def storeHandle (st : BindingState) (h : FileHandle) : Int × BindingState :=
  let id := wrap64 (st.handleIDGen + 1)
  (id, { st with
          handleIDGen := id
          handleMap := fun k => if k = id then some h else st.handleMap k
          issuedHandleIDs := id :: st.issuedHandleIDs })

/-- Go `getHandle`: map lookup, `nil` (`none`) when absent. -/
def getHandle (st : BindingState) (id : Int) : Option FileHandle :=
  st.handleMap id

/-- Go `removeHandle`: deletes the entry. -/
def removeHandle (st : BindingState) (id : Int) : BindingState :=
  { st with handleMap := fun k => if k = id then none else st.handleMap k }

/-- Go `AGFS_GetLastError`. -/
def AGFS_GetLastError (st : BindingState) (errorID : Int) : String × BindingState :=
  getAndClearError st errorID

/-- Go `AGFS_OpenHandle`; the oracle argument is the result of
`fs.OpenHandle`.  On failure the error is stored (its id discarded)
and `-1` returned; on success the handle is stored and its id
returned. -/
def AGFS_OpenHandle (st : BindingState) (res : Except String FileHandle) :
    Int × BindingState :=
  match res with
  | Except.error e =>
      let r := storeError st (some e)
      (-1, r.2)
  | Except.ok h =>
      let r := storeHandle st h
      (r.1, r.2)

/-- Output of the boundary functions that return one JSON string;
`backendCalled` instruments whether a backend method was invoked. -/
structure BOut where
  json : JValue
  st : BindingState
  backendCalled : Bool

/-- Go `AGFS_CloseHandle`: a missing id returns `{"error_id": 0}`
without touching the backend; a live handle is closed, the table
entry removed unconditionally, and a close failure stored and
reported. -/
def AGFS_CloseHandle (st : BindingState) (handleID : Int) : BOut :=
  match getHandle st handleID with
  | none => { json := errJson 0, st := st, backendCalled := false }
  | some h =>
      let st₁ := removeHandle st handleID
      match h.closeErr with
      | some e =>
          let r := storeError st₁ (some e)
          { json := errJson r.1, st := r.2, backendCalled := true }
      | none => { json := msgJson "handle closed", st := st₁, backendCalled := true }

/-- First return value of `AGFS_HandleRead`: either the error JSON
string or the data string `string(buf[:n])`. -/
inductive ReadPayload where
  | errJSON : JValue → ReadPayload
  | bytes : Bytes → ReadPayload

/-- Output of `AGFS_HandleRead` `(payload, n, code)` plus state and
instrumentation. -/
structure HReadOut where
  payload : ReadPayload
  n : Int
  code : Int
  st : BindingState
  backendCalled : Bool

/-- Go `AGFS_HandleRead`: missing handle stores a `handle not found`
error and returns code `-1`; otherwise `ReadAt`/`Read` is called and
an error whose message is exactly `"EOF"` falls through to the
success path. -/
def AGFS_HandleRead (st : BindingState) (handleID : Int) (size : Nat)
    (offset : Int) (hasOffset : Bool) : HReadOut :=
  match getHandle st handleID with
  | none =>
      let r := storeError st (some "handle not found")
      { payload := ReadPayload.errJSON (errJson r.1), n := 0, code := -1,
        st := r.2, backendCalled := false }
  | some h =>
      let res := if hasOffset then h.readAtF size offset else h.readF size
      match res.2 with
      | some e =>
          if e = "EOF" then
            { payload := ReadPayload.bytes res.1, n := res.1.length, code := 0,
              st := st, backendCalled := true }
          else
            let r := storeError st (some e)
            { payload := ReadPayload.errJSON (errJson r.1), n := 0, code := -1,
              st := r.2, backendCalled := true }
      | none =>
          { payload := ReadPayload.bytes res.1, n := res.1.length, code := 0,
            st := st, backendCalled := true }

/-- Go `AGFS_HandleWrite`: missing handle stores `handle not found`;
otherwise `WriteAt`/`Write` is called and a failure stored. -/
def AGFS_HandleWrite (st : BindingState) (handleID : Int) (data : Bytes)
    (offset : Int) (hasOffset : Bool) : BOut :=
  match getHandle st handleID with
  | none =>
      let r := storeError st (some "handle not found")
      { json := errJson r.1, st := r.2, backendCalled := false }
  | some h =>
      let res := if hasOffset then h.writeAtF data offset else h.writeF data
      match res.2 with
      | some e =>
          let r := storeError st (some e)
          { json := errJson r.1, st := r.2, backendCalled := true }
      | none =>
          { json := JValue.jobj [("bytes_written", JValue.jint res.1)], st := st,
            backendCalled := true }

/-- Go `AGFS_HandleSeek`. -/
def AGFS_HandleSeek (st : BindingState) (handleID : Int) (offset : Int)
    (whence : Int) : BOut :=
  match getHandle st handleID with
  | none =>
      let r := storeError st (some "handle not found")
      { json := errJson r.1, st := r.2, backendCalled := false }
  | some h =>
      let res := h.seekF offset whence
      match res.2 with
      | some e =>
          let r := storeError st (some e)
          { json := errJson r.1, st := r.2, backendCalled := true }
      | none =>
          { json := JValue.jobj [("position", JValue.jint res.1)], st := st,
            backendCalled := true }

/-- Go `AGFS_HandleSync`. -/
def AGFS_HandleSync (st : BindingState) (handleID : Int) : BOut :=
  match getHandle st handleID with
  | none =>
      let r := storeError st (some "handle not found")
      { json := errJson r.1, st := r.2, backendCalled := false }
  | some h =>
      match h.syncErr with
      | some e =>
          let r := storeError st (some e)
          { json := errJson r.1, st := r.2, backendCalled := true }
      | none => { json := msgJson "synced", st := st, backendCalled := true }

/-- The metadata JSON object built by `AGFS_Stat`, `AGFS_Ls` and
`AGFS_HandleStat`: exactly the fields
`name`, `size`, `mode`, `modTime` (RFC3339Nano), `isDir`. -/
def statJson (info : FileInfo) : JValue :=
  JValue.jobj
    [ ("name", JValue.jstr info.name)
    , ("size", JValue.jint info.size)
    , ("mode", JValue.jint (info.mode : Int))
    , ("modTime", JValue.jstr (info.modTime.formatRFC3339Nano))
    , ("isDir", JValue.jbool info.isDir) ]

/-- Go `AGFS_HandleStat`. -/
def AGFS_HandleStat (st : BindingState) (handleID : Int) : BOut :=
  match getHandle st handleID with
  | none =>
      let r := storeError st (some "handle not found")
      { json := errJson r.1, st := r.2, backendCalled := false }
  | some h =>
      match h.statF.2 with
      | some e =>
          let r := storeError st (some e)
          { json := errJson r.1, st := r.2, backendCalled := true }
      | none => { json := statJson h.statF.1, st := st, backendCalled := true }

/-- Return of `AGFS_Read`: the `C.int64_t` result together with the
out-parameters, which are only written on the success path (`outData`
is left `nil` when no bytes were read). -/
inductive PReadRet where
  | err : Int → PReadRet
  | ok : Option Bytes → Int → PReadRet

/-- Go `AGFS_Read` (path read); the oracle argument is the result of
`fs.Read`.  An error message of exactly `"EOF"` falls through to the
success path, which returns 0 and sets the out-parameters. -/
def AGFS_Read (st : BindingState) (res : Bytes × Option String) :
    PReadRet × BindingState :=
  match res.2 with
  | some e =>
      if e = "EOF" then
        if 0 < res.1.length then (PReadRet.ok (some res.1) res.1.length, st)
        else (PReadRet.ok none 0, st)
      else
        let r := storeError st (some e)
        (PReadRet.err r.1, r.2)
  | none =>
      if 0 < res.1.length then (PReadRet.ok (some res.1) res.1.length, st)
      else (PReadRet.ok none 0, st)

/-- Go `AGFS_Stat`; the oracle argument is the result of `fs.Stat`. -/
def AGFS_Stat (st : BindingState) (res : Except String FileInfo) :
    JValue × BindingState :=
  match res with
  | Except.error e =>
      let r := storeError st (some e)
      (errJson r.1, r.2)
  | Except.ok info => (statJson info, st)

/-- Go `AGFS_Ls`; the oracle argument is the result of `fs.ReadDir`. -/
def AGFS_Ls (st : BindingState) (res : Except String (List FileInfo)) :
    JValue × BindingState :=
  match res with
  | Except.error e =>
      let r := storeError st (some e)
      (errJson r.1, r.2)
  | Except.ok files =>
      (JValue.jobj [("files", JValue.jarr (files.map statJson))], st)

/-- Output of `AGFS_Mount`; `configPassed` instruments the config
argument handed to `fs.MountPlugin`. -/
structure MountOut where
  json : JValue
  st : BindingState
  configPassed : Config

/-- Go `AGFS_Mount`: `cfgParse` is the result of `json.Unmarshal` on
the config string; on a parse error the config silently becomes the
empty map.  `mountRes` is the oracle for `fs.MountPlugin`. -/
def AGFS_Mount (st : BindingState) (fsType p : String)
    (cfgParse : Except String Config) (mountRes : Config → Option String) :
    MountOut :=
  let config := match cfgParse with
    | Except.error _ => []
    | Except.ok c => c
  match mountRes config with
  | some e =>
      let r := storeError st (some e)
      { json := errJson r.1, st := r.2, configPassed := config }
  | none =>
      { json := msgJson ("mounted " ++ fsType ++ " at " ++ p), st := st,
        configPassed := config }

/-- One call into the boundary layer, with the backend results each
call needs supplied as oracle data.  `genericOp err` abstracts the
remaining path-level wrappers of `main.go` (`AGFS_Write`,
`AGFS_Create`, `AGFS_Mkdir`, `AGFS_Rm`, `AGFS_Mv`, `AGFS_Chmod`,
`AGFS_Touch`, `AGFS_Unmount`, `AGFS_LoadPlugin`,
`AGFS_UnloadPlugin`), whose only effect on the package state is a
possible `storeError` on backend failure. -/
inductive Op where
  | openHandle : Except String FileHandle → Op
  | closeHandle : Int → Op
  | handleRead : Int → Nat → Int → Bool → Op
  | handleWrite : Int → Bytes → Int → Bool → Op
  | handleSeek : Int → Int → Int → Op
  | handleSync : Int → Op
  | handleStat : Int → Op
  | getLastError : Int → Op
  | pathRead : Bytes × Option String → Op
  | statOp : Except String FileInfo → Op
  | lsOp : Except String (List FileInfo) → Op
  | mountOp : String → String → Except String Config → (Config → Option String) → Op
  | genericOp : Option String → Op

/-- State transition of one boundary call. -/
def step (st : BindingState) : Op → BindingState
  | Op.openHandle res => (AGFS_OpenHandle st res).2
  | Op.closeHandle id => (AGFS_CloseHandle st id).st
  | Op.handleRead id size off hasOff => (AGFS_HandleRead st id size off hasOff).st
  | Op.handleWrite id data off hasOff => (AGFS_HandleWrite st id data off hasOff).st
  | Op.handleSeek id off whence => (AGFS_HandleSeek st id off whence).st
  | Op.handleSync id => (AGFS_HandleSync st id).st
  | Op.handleStat id => (AGFS_HandleStat st id).st
  | Op.getLastError id => (AGFS_GetLastError st id).2
  | Op.pathRead res => (AGFS_Read st res).2
  | Op.statOp res => (AGFS_Stat st res).2
  | Op.lsOp res => (AGFS_Ls st res).2
  | Op.mountOp fsType p cfg mres => (AGFS_Mount st fsType p cfg mres).st
  | Op.genericOp err => (storeError st err).2

/-- State after a sequence of boundary calls. -/
def run (st : BindingState) : List Op → BindingState
  | [] => st
  | op :: ops => run (step st op) ops

/-- Invariant of the package state: generators are non-negative, the
ghost issue histories (newest first) are strictly decreasing and
bounded by the generators, and every live table entry was issued. -/
def Inv (st : BindingState) : Prop :=
  0 ≤ st.handleIDGen ∧ 0 ≤ st.errorIDGen
    ∧ List.Pairwise (· > ·) st.issuedHandleIDs
    ∧ (∀ i ∈ st.issuedHandleIDs, 0 < i ∧ i ≤ st.handleIDGen)
    ∧ (∀ id, st.handleMap id ≠ none → id ∈ st.issuedHandleIDs)
    ∧ List.Pairwise (· > ·) st.issuedErrorIDs
    ∧ (∀ i ∈ st.issuedErrorIDs, 0 < i ∧ i ≤ st.errorIDGen)

/-- One step preserves the invariant and moves each generator by at
most one. -/
def StepOK (st st' : BindingState) : Prop :=
  Inv st'
    ∧ st.handleIDGen ≤ st'.handleIDGen ∧ st'.handleIDGen ≤ st.handleIDGen + 1
    ∧ st.errorIDGen ≤ st'.errorIDGen ∧ st'.errorIDGen ≤ st.errorIDGen + 1

/-- Sample time value for concrete runs. -/
def dummyTime : GoTime := { rfc3339Nano := "2024-01-02T03:04:05.678901234Z" }

/-- Sample metadata for concrete runs. -/
def dummyInfo : FileInfo :=
  { name := "f.txt", size := 5, mode := 420, modTime := dummyTime, isDir := false }

/-- A backend handle whose every operation succeeds. -/
def okHandle : FileHandle :=
  { closeErr := none
    readF := fun _ => ([], none)
    readAtF := fun _ _ => ([], none)
    writeF := fun d => ((d.length : Int), none)
    writeAtF := fun d _ => ((d.length : Int), none)
    seekF := fun off _ => (off, none)
    syncErr := none
    statF := (dummyInfo, none) }

/-- A backend handle whose `Close` fails. -/
def errCloseHandle : FileHandle := { okHandle with closeErr := some "close failed" }

/-- A backend handle whose reads end with message `"EOF"` after two
bytes. -/
def eofHandle : FileHandle :=
  { okHandle with
      readF := fun _ => ([7, 8], some "EOF")
      readAtF := fun _ _ => ([7, 8], some "EOF") }

/-- A backend handle whose reads fail with a non-EOF error. -/
def errReadHandle : FileHandle :=
  { okHandle with
      readF := fun _ => ([], some "boom")
      readAtF := fun _ _ => ([], some "boom") }

/-- A backend handle whose reads succeed with one byte and a nil
error. -/
def plainReadHandle : FileHandle :=
  { okHandle with
      readF := fun _ => ([1], none)
      readAtF := fun _ _ => ([1], none) }

/-- Open one handle from the initial state. -/
def cexOpen : Int × BindingState := AGFS_OpenHandle initState (Except.ok okHandle)

/-- First close of that handle. -/
def cexClose1 : BOut := AGFS_CloseHandle cexOpen.2 cexOpen.1

/-- Second close of the same id. -/
def cexClose2 : BOut := AGFS_CloseHandle cexClose1.st cexOpen.1

/-- State holding a failing-close handle (id 1) and a clean handle
(id 2). -/
def stTwoHandles : BindingState :=
  (storeHandle (storeHandle initState errCloseHandle).2 okHandle).2

/-- State holding an EOF handle (id 1), a failing-read handle (id 2)
and a clean-read handle (id 3). -/
def stThreeReaders : BindingState :=
  (storeHandle (storeHandle (storeHandle initState eofHandle).2 errReadHandle).2
    plainReadHandle).2

/-- State holding one stat-capable handle (id 1). -/
def stOneHandle : BindingState := (storeHandle initState okHandle).2

/-- State holding two stored errors (ids 1 and 2). -/
def stTwoErrors : BindingState :=
  (storeError (storeError initState (some "alpha")).2 (some "beta")).2

/-- Small concrete call trace used to instantiate the trace-level
theorems. -/
def opsSample : List Op :=
  [ Op.openHandle (Except.ok okHandle)
  , Op.openHandle (Except.ok okHandle)
  , Op.closeHandle 1
  , Op.handleRead 7 4 0 false
  , Op.genericOp (some "boom") ]

theorem wrap64_eq_self {x : Int} (h1 : int64Min ≤ x) (h2 : x ≤ int64Max) :
    wrap64 x = x := by
  unfold wrap64
  unfold int64Min at h1
  unfold int64Max at h2
  omega

theorem inv_initState : Inv initState := by
  refine ⟨le_refl 0, le_refl 0, List.Pairwise.nil, ?_, ?_, List.Pairwise.nil, ?_⟩
  · intro i hi; simp [initState] at hi
  · intro id hid; simp [initState] at hid
  · intro i hi; simp [initState] at hi

theorem stepOK_refl {st : BindingState} (h : Inv st) : StepOK st st :=
  ⟨h, le_refl _, by omega, le_refl _, by omega⟩

theorem stepOK_storeError {st : BindingState} (err : Option String) (h : Inv st)
    (hb : st.errorIDGen < int64Max) : StepOK st (storeError st err).2 := by
  match err with
  | none => exact stepOK_refl h
  | some msg =>
      obtain ⟨h1, h2, h3, h4, h5, h6, h7⟩ := h
      have hw : wrap64 (st.errorIDGen + 1) = st.errorIDGen + 1 := by
        apply wrap64_eq_self
        · unfold int64Min; omega
        · omega
      refine ⟨⟨h1, by simp [storeError, hw]; omega, by simpa [storeError] using h3,
        by simpa [storeError] using h4, by simpa [storeError] using h5, ?_, ?_⟩,
        ?_, ?_, ?_, ?_⟩
      · simp only [storeError, hw]
        exact List.Pairwise.cons (fun i hi => by have := (h7 i hi).2; omega) h6
      · simp only [storeError, hw]
        intro i hi
        rcases List.mem_cons.mp hi with hc | hc
        · omega
        · have := h7 i hc; omega
      · simp [storeError]
      · simp [storeError]
      · simp [storeError, hw]
      · simp [storeError, hw]

theorem stepOK_storeHandle {st : BindingState} (hd : FileHandle) (h : Inv st)
    (hb : st.handleIDGen < int64Max) : StepOK st (storeHandle st hd).2 := by
  obtain ⟨h1, h2, h3, h4, h5, h6, h7⟩ := h
  have hw : wrap64 (st.handleIDGen + 1) = st.handleIDGen + 1 := by
    apply wrap64_eq_self
    · unfold int64Min; omega
    · omega
  refine ⟨⟨by simp [storeHandle, hw]; omega, h2, ?_, ?_, ?_,
    by simpa [storeHandle] using h6, by simpa [storeHandle] using h7⟩,
    ?_, ?_, ?_, ?_⟩
  · simp only [storeHandle, hw]
    exact List.Pairwise.cons (fun i hi => by have := (h4 i hi).2; omega) h3
  · simp only [storeHandle, hw]
    intro i hi
    rcases List.mem_cons.mp hi with hc | hc
    · omega
    · have := h4 i hc; omega
  · simp only [storeHandle, hw]
    intro id hid
    by_cases hc : id = st.handleIDGen + 1
    · simp [hc]
    · simp only [hc, if_false] at hid
      exact List.mem_cons_of_mem _ (h5 id hid)
  · simp [storeHandle, hw]
  · simp [storeHandle, hw]
  · simp [storeHandle]
  · simp [storeHandle]

theorem inv_removeHandle {st : BindingState} (id : Int) (h : Inv st) :
    Inv (removeHandle st id) := by
  obtain ⟨h1, h2, h3, h4, h5, h6, h7⟩ := h
  refine ⟨h1, h2, h3, h4, ?_, h6, h7⟩
  intro j hj
  simp only [removeHandle] at hj
  by_cases hc : j = id
  · simp [hc] at hj
  · simp only [hc, if_false] at hj
    exact h5 j hj

theorem stepOK_removeHandle {st : BindingState} (id : Int) (h : Inv st) :
    StepOK st (removeHandle st id) := by
  refine ⟨inv_removeHandle id h, ?_, ?_, ?_, ?_⟩ <;>
    simp only [removeHandle] <;> omega

theorem stepOK_storeError_removeHandle {st : BindingState} (id : Int)
    (err : Option String) (h : Inv st) (hb : st.errorIDGen < int64Max) :
    StepOK st (storeError (removeHandle st id) err).2 := by
  have h1 : Inv (removeHandle st id) := inv_removeHandle id h
  have h2 : StepOK (removeHandle st id) (storeError (removeHandle st id) err).2 :=
    stepOK_storeError err h1 hb
  exact ⟨h2.1, h2.2.1, h2.2.2.1, h2.2.2.2.1, h2.2.2.2.2⟩

theorem stepOK_getAndClearError {st : BindingState} (id : Int) (h : Inv st) :
    StepOK st (getAndClearError st id).2 := by
  unfold getAndClearError
  by_cases hc : id = 0
  · simp only [hc, if_pos rfl]
    exact stepOK_refl h
  · simp only [if_neg hc]
    obtain ⟨h1, h2, h3, h4, h5, h6, h7⟩ := h
    refine ⟨⟨h1, h2, h3, h4, h5, h6, h7⟩, ?_, ?_, ?_, ?_⟩ <;> dsimp only <;> omega

theorem step_stepOK (st : BindingState) (op : Op) (h : Inv st)
    (hbh : st.handleIDGen < int64Max) (hbe : st.errorIDGen < int64Max) :
    StepOK st (step st op) := by
  cases op with
  | openHandle res =>
      cases res with
      | error e => exact stepOK_storeError (some e) h hbe
      | ok hd => exact stepOK_storeHandle hd h hbh
  | closeHandle id =>
      show StepOK st (AGFS_CloseHandle st id).st
      unfold AGFS_CloseHandle
      cases hg : getHandle st id with
      | none => exact stepOK_refl h
      | some hd =>
          dsimp only
          cases hc : hd.closeErr with
          | some e => exact stepOK_storeError_removeHandle id (some e) h hbe
          | none => exact stepOK_removeHandle id h
  | handleRead id size off hasOff =>
      show StepOK st (AGFS_HandleRead st id size off hasOff).st
      unfold AGFS_HandleRead
      cases hg : getHandle st id with
      | none => exact stepOK_storeError (some "handle not found") h hbe
      | some hd =>
          dsimp only
          cases hr : (if hasOff then hd.readAtF size off else hd.readF size).2 with
          | none => exact stepOK_refl h
          | some e =>
              dsimp only
              by_cases he : e = "EOF"
              · rw [if_pos he]
                exact stepOK_refl h
              · rw [if_neg he]
                exact stepOK_storeError (some e) h hbe
  | handleWrite id data off hasOff =>
      show StepOK st (AGFS_HandleWrite st id data off hasOff).st
      unfold AGFS_HandleWrite
      cases hg : getHandle st id with
      | none => exact stepOK_storeError (some "handle not found") h hbe
      | some hd =>
          dsimp only
          cases hr : (if hasOff then hd.writeAtF data off else hd.writeF data).2 with
          | none => exact stepOK_refl h
          | some e => exact stepOK_storeError (some e) h hbe
  | handleSeek id off whence =>
      show StepOK st (AGFS_HandleSeek st id off whence).st
      unfold AGFS_HandleSeek
      cases hg : getHandle st id with
      | none => exact stepOK_storeError (some "handle not found") h hbe
      | some hd =>
          dsimp only
          cases hr : (hd.seekF off whence).2 with
          | none => exact stepOK_refl h
          | some e => exact stepOK_storeError (some e) h hbe
  | handleSync id =>
      show StepOK st (AGFS_HandleSync st id).st
      unfold AGFS_HandleSync
      cases hg : getHandle st id with
      | none => exact stepOK_storeError (some "handle not found") h hbe
      | some hd =>
          dsimp only
          cases hc : hd.syncErr with
          | none => exact stepOK_refl h
          | some e => exact stepOK_storeError (some e) h hbe
  | handleStat id =>
      show StepOK st (AGFS_HandleStat st id).st
      unfold AGFS_HandleStat
      cases hg : getHandle st id with
      | none => exact stepOK_storeError (some "handle not found") h hbe
      | some hd =>
          dsimp only
          cases hc : hd.statF.2 with
          | none => exact stepOK_refl h
          | some e => exact stepOK_storeError (some e) h hbe
  | getLastError id => exact stepOK_getAndClearError id h
  | pathRead res =>
      show StepOK st (AGFS_Read st res).2
      unfold AGFS_Read
      cases hr : res.2 with
      | none =>
          dsimp only
          split <;> exact stepOK_refl h
      | some e =>
          dsimp only
          by_cases he : e = "EOF"
          · rw [if_pos he]
            split <;> exact stepOK_refl h
          · rw [if_neg he]
            exact stepOK_storeError (some e) h hbe
  | statOp res =>
      cases res with
      | error e => exact stepOK_storeError (some e) h hbe
      | ok info => exact stepOK_refl h
  | lsOp res =>
      cases res with
      | error e => exact stepOK_storeError (some e) h hbe
      | ok files => exact stepOK_refl h
  | mountOp fsType p cfg mres =>
      show StepOK st (AGFS_Mount st fsType p cfg mres).st
      unfold AGFS_Mount
      dsimp only
      cases hm : mres (match cfg with | Except.error _ => [] | Except.ok c => c) with
      | none => exact stepOK_refl h
      | some e => exact stepOK_storeError (some e) h hbe
  | genericOp err => exact stepOK_storeError err h hbe

theorem run_stepOK (ops : List Op) : ∀ st : BindingState, Inv st →
    st.handleIDGen + ops.length ≤ int64Max →
    st.errorIDGen + ops.length ≤ int64Max →
    Inv (run st ops)
      ∧ st.handleIDGen ≤ (run st ops).handleIDGen
      ∧ (run st ops).handleIDGen ≤ st.handleIDGen + ops.length
      ∧ st.errorIDGen ≤ (run st ops).errorIDGen
      ∧ (run st ops).errorIDGen ≤ st.errorIDGen + ops.length := by
  induction ops with
  | nil =>
      intro st h _ _
      exact ⟨h, by simp [run], by simp [run], by simp [run], by simp [run]⟩
  | cons op ops ih =>
      intro st h h1 h2
      have hlen : (0 : Int) ≤ (ops.length : Int) := Int.ofNat_nonneg _
      have hc1 : (((op :: ops).length : Nat) : Int) = (ops.length : Int) + 1 := by
        simp
      rw [hc1] at h1 h2
      have hbh : st.handleIDGen < int64Max := by omega
      have hbe : st.errorIDGen < int64Max := by omega
      obtain ⟨hi, ha1, ha2, hb1, hb2⟩ := step_stepOK st op h hbh hbe
      obtain ⟨hi', hc1', hc2', hd1', hd2'⟩ :=
        ih (step st op) hi (by omega) (by omega)
      refine ⟨by simpa [run] using hi', ?_, ?_, ?_, ?_⟩ <;>
        simp only [run, List.length_cons] <;> push_cast <;> omega

theorem reach_inv (ops : List Op) (hL : (ops.length : Int) ≤ int64Max) :
    Inv (run initState ops)
      ∧ (run initState ops).handleIDGen ≤ (ops.length : Int)
      ∧ (run initState ops).errorIDGen ≤ (ops.length : Int) := by
  obtain ⟨hi, _, h2, _, h4⟩ := run_stepOK ops initState inv_initState
    (by simpa [initState] using hL) (by simpa [initState] using hL)
  refine ⟨hi, ?_, ?_⟩
  · simpa [initState] using h2
  · simpa [initState] using h4

theorem storeError_id_eq (st : BindingState) (msg : String)
    (h0 : 0 ≤ st.errorIDGen) (h1 : st.errorIDGen < int64Max) :
    (storeError st (some msg)).1 = st.errorIDGen + 1 := by
  simp only [storeError]
  exact wrap64_eq_self (by unfold int64Min; omega) (by omega)

theorem storeError_buffer_eq (st : BindingState) (msg : String)
    (h0 : 0 ≤ st.errorIDGen) (h1 : st.errorIDGen < int64Max) :
    (storeError st (some msg)).2.errorBuffer (st.errorIDGen + 1) = some msg := by
  have hw : wrap64 (st.errorIDGen + 1) = st.errorIDGen + 1 :=
    wrap64_eq_self (by unfold int64Min; omega) (by omega)
  simp [storeError, hw]

theorem storeHandle_id_eq (st : BindingState) (hd : FileHandle)
    (h0 : 0 ≤ st.handleIDGen) (h1 : st.handleIDGen < int64Max) :
    (storeHandle st hd).1 = st.handleIDGen + 1 := by
  simp only [storeHandle]
  exact wrap64_eq_self (by unfold int64Min; omega) (by omega)

theorem getHandle_storeHandle (st : BindingState) (hd : FileHandle) :
    getHandle (storeHandle st hd).2 (storeHandle st hd).1 = some hd := by
  simp [getHandle, storeHandle]

theorem closeHandle_removes (st : BindingState) (id : Int) (hd : FileHandle)
    (hm : st.handleMap id = some hd) :
    (AGFS_CloseHandle st id).st.handleMap id = none
      ∧ (AGFS_CloseHandle st id).backendCalled = true := by
  unfold AGFS_CloseHandle getHandle
  rw [hm]
  dsimp only
  cases hd.closeErr with
  | some e => exact ⟨by simp [storeError, removeHandle], rfl⟩
  | none => exact ⟨by simp [removeHandle], rfl⟩

theorem closeHandle_missing (st : BindingState) (id : Int)
    (hm : st.handleMap id = none) :
    AGFS_CloseHandle st id = { json := errJson 0, st := st, backendCalled := false } := by
  unfold AGFS_CloseHandle getHandle
  rw [hm]

/-- C1, counterexample: from the initial state, open a handle (id 1)
and close it twice.  The second close returns the `{"error_id": 0}`
document — the no-error identifier — with no error stored in the
buffer (the error generator and issue history are untouched), so it
is not a distinguishable NotFound error outcome; the backend `Close`
is also not invoked again. -/
theorem closeHandle_double_close_cex :
    cexClose2.json = errJson 0
      ∧ cexClose2.backendCalled = false
      ∧ cexClose2.st.errorIDGen = 0
      ∧ cexClose2.st.issuedErrorIDs = []
      ∧ cexClose1.backendCalled = true := by
  refine ⟨?_, ?_, ?_, ?_, ?_⟩ <;> rfl

/-- C1 (amended): for every handle issued by a successful open and
then closed once, a second close of the same id returns the
`{"error_id": 0}` document (the no-error identifier, not a NotFound
error outcome), leaves the state unchanged, and does not invoke the
backend handle's `Close` a second time. -/
theorem closeHandle_double_close (st : BindingState) (hd : FileHandle) :
    (AGFS_CloseHandle
        (AGFS_CloseHandle (AGFS_OpenHandle st (Except.ok hd)).2
            (AGFS_OpenHandle st (Except.ok hd)).1).st
        (AGFS_OpenHandle st (Except.ok hd)).1).json = errJson 0
    ∧ (AGFS_CloseHandle
        (AGFS_CloseHandle (AGFS_OpenHandle st (Except.ok hd)).2
            (AGFS_OpenHandle st (Except.ok hd)).1).st
        (AGFS_OpenHandle st (Except.ok hd)).1).backendCalled = false
    ∧ (AGFS_CloseHandle
        (AGFS_CloseHandle (AGFS_OpenHandle st (Except.ok hd)).2
            (AGFS_OpenHandle st (Except.ok hd)).1).st
        (AGFS_OpenHandle st (Except.ok hd)).1).st =
      (AGFS_CloseHandle (AGFS_OpenHandle st (Except.ok hd)).2
        (AGFS_OpenHandle st (Except.ok hd)).1).st
    ∧ (AGFS_CloseHandle (AGFS_OpenHandle st (Except.ok hd)).2
        (AGFS_OpenHandle st (Except.ok hd)).1).backendCalled = true := by
  have hopen : (AGFS_OpenHandle st (Except.ok hd)).2 = (storeHandle st hd).2 := rfl
  have hopenid : (AGFS_OpenHandle st (Except.ok hd)).1 = (storeHandle st hd).1 := rfl
  have hlook : (AGFS_OpenHandle st (Except.ok hd)).2.handleMap
      (AGFS_OpenHandle st (Except.ok hd)).1 = some hd := by
    rw [hopen, hopenid]
    exact getHandle_storeHandle st hd
  obtain ⟨hrem, hcall⟩ := closeHandle_removes _ _ _ hlook
  have hmiss := closeHandle_missing _ _ hrem
  rw [hmiss]
  exact ⟨rfl, rfl, rfl, hcall⟩

/-- C4: closing a live handle always removes the table entry, whether
the backend `Close` succeeds or fails; a close failure is stored and
reported through a nonzero error identifier whose message is
retrievable. -/
theorem closeHandle_always_removes (st : BindingState)
    (hid hid2 : Int) (hndl hndl2 : FileHandle) (e : String)
    (hm : st.handleMap hid = some hndl) (hce : hndl.closeErr = some e)
    (hm2 : st.handleMap hid2 = some hndl2) (hce2 : hndl2.closeErr = none)
    (h0 : 0 ≤ st.errorIDGen) (h1 : st.errorIDGen < int64Max) :
    (AGFS_CloseHandle st hid).st.handleMap hid = none
    ∧ (AGFS_CloseHandle st hid).backendCalled = true
    ∧ (AGFS_CloseHandle st hid).json = errJson (st.errorIDGen + 1)
    ∧ 0 < st.errorIDGen + 1
    ∧ (AGFS_CloseHandle st hid).st.errorBuffer (st.errorIDGen + 1) = some e
    ∧ (AGFS_CloseHandle st hid2).st.handleMap hid2 = none
    ∧ (AGFS_CloseHandle st hid2).backendCalled = true
    ∧ (AGFS_CloseHandle st hid2).json = msgJson "handle closed" := by
  obtain ⟨hrem, hcall⟩ := closeHandle_removes st hid hndl hm
  obtain ⟨hrem2, hcall2⟩ := closeHandle_removes st hid2 hndl2 hm2
  have hfail : AGFS_CloseHandle st hid =
      { json := errJson (storeError (removeHandle st hid) (some e)).1
        st := (storeError (removeHandle st hid) (some e)).2
        backendCalled := true } := by
    unfold AGFS_CloseHandle getHandle
    rw [hm]
    dsimp only
    rw [hce]
  have hok : AGFS_CloseHandle st hid2 =
      { json := msgJson "handle closed"
        st := removeHandle st hid2
        backendCalled := true } := by
    unfold AGFS_CloseHandle getHandle
    rw [hm2]
    dsimp only
    rw [hce2]
  have hre : (removeHandle st hid).errorIDGen = st.errorIDGen := rfl
  refine ⟨hrem, hcall, ?_, by omega, ?_, hrem2, hcall2, ?_⟩
  · rw [hfail]
    have := storeError_id_eq (removeHandle st hid) e (by rw [hre]; exact h0)
      (by rw [hre]; exact h1)
    rw [hre] at this
    simp [this]
  · rw [hfail]
    have := storeError_buffer_eq (removeHandle st hid) e (by rw [hre]; exact h0)
      (by rw [hre]; exact h1)
    rw [hre] at this
    simpa using this
  · rw [hok]

/-- C4, witness: in a state holding a failing-close handle (id 1) and
a clean handle (id 2), both closes remove the entry and the failing
close is reported. -/
theorem closeHandle_always_removes_witness :
    stTwoHandles.handleMap 1 = some errCloseHandle
    ∧ errCloseHandle.closeErr = some "close failed"
    ∧ stTwoHandles.handleMap 2 = some okHandle
    ∧ okHandle.closeErr = none
    ∧ 0 ≤ stTwoHandles.errorIDGen
    ∧ stTwoHandles.errorIDGen < int64Max
    ∧ ((AGFS_CloseHandle stTwoHandles 1).st.handleMap 1 = none
      ∧ (AGFS_CloseHandle stTwoHandles 1).backendCalled = true
      ∧ (AGFS_CloseHandle stTwoHandles 1).json = errJson (stTwoHandles.errorIDGen + 1)
      ∧ 0 < stTwoHandles.errorIDGen + 1
      ∧ (AGFS_CloseHandle stTwoHandles 1).st.errorBuffer (stTwoHandles.errorIDGen + 1) =
          some "close failed"
      ∧ (AGFS_CloseHandle stTwoHandles 2).st.handleMap 2 = none
      ∧ (AGFS_CloseHandle stTwoHandles 2).backendCalled = true
      ∧ (AGFS_CloseHandle stTwoHandles 2).json = msgJson "handle closed") :=
  ⟨rfl, rfl, rfl, rfl, by decide, by decide,
    closeHandle_always_removes stTwoHandles 1 2 errCloseHandle okHandle "close failed"
      rfl rfl rfl rfl (by decide) (by decide)⟩

/-- C3: for an id absent from the handle table, each of read, write,
seek, sync and stat stores a `handle not found` error under the fresh
nonzero identifier `errorIDGen + 1` and returns it, without invoking
any backend call. -/
theorem missing_handle_ops_fail (st : BindingState) (hid : Int) (size : Nat)
    (off : Int) (hasOff : Bool) (data : Bytes) (whence : Int)
    (hm : st.handleMap hid = none)
    (h0 : 0 ≤ st.errorIDGen) (h1 : st.errorIDGen < int64Max) :
    AGFS_HandleRead st hid size off hasOff =
      { payload := ReadPayload.errJSON (errJson (st.errorIDGen + 1)), n := 0,
        code := -1, st := (storeError st (some "handle not found")).2,
        backendCalled := false }
    ∧ AGFS_HandleWrite st hid data off hasOff =
      { json := errJson (st.errorIDGen + 1),
        st := (storeError st (some "handle not found")).2, backendCalled := false }
    ∧ AGFS_HandleSeek st hid off whence =
      { json := errJson (st.errorIDGen + 1),
        st := (storeError st (some "handle not found")).2, backendCalled := false }
    ∧ AGFS_HandleSync st hid =
      { json := errJson (st.errorIDGen + 1),
        st := (storeError st (some "handle not found")).2, backendCalled := false }
    ∧ AGFS_HandleStat st hid =
      { json := errJson (st.errorIDGen + 1),
        st := (storeError st (some "handle not found")).2, backendCalled := false }
    ∧ 0 < st.errorIDGen + 1
    ∧ (storeError st (some "handle not found")).2.errorBuffer (st.errorIDGen + 1) =
        some "handle not found" := by
  have hne := storeError_id_eq st "handle not found" h0 h1
  refine ⟨?_, ?_, ?_, ?_, ?_, by omega, storeError_buffer_eq st _ h0 h1⟩
  · unfold AGFS_HandleRead getHandle
    rw [hm]
    dsimp only
    rw [hne]
  · unfold AGFS_HandleWrite getHandle
    rw [hm]
    dsimp only
    rw [hne]
  · unfold AGFS_HandleSeek getHandle
    rw [hm]
    dsimp only
    rw [hne]
  · unfold AGFS_HandleSync getHandle
    rw [hm]
    dsimp only
    rw [hne]
  · unfold AGFS_HandleStat getHandle
    rw [hm]
    dsimp only
    rw [hne]

/-- C3, witness: instantiated at the initial state and id 5. -/
theorem missing_handle_ops_fail_witness :
    initState.handleMap 5 = none
    ∧ 0 ≤ initState.errorIDGen
    ∧ initState.errorIDGen < int64Max
    ∧ (AGFS_HandleRead initState 5 4 0 false =
        { payload := ReadPayload.errJSON (errJson (initState.errorIDGen + 1)), n := 0,
          code := -1, st := (storeError initState (some "handle not found")).2,
          backendCalled := false }
      ∧ AGFS_HandleWrite initState 5 [9] 0 false =
        { json := errJson (initState.errorIDGen + 1),
          st := (storeError initState (some "handle not found")).2, backendCalled := false }
      ∧ AGFS_HandleSeek initState 5 0 0 =
        { json := errJson (initState.errorIDGen + 1),
          st := (storeError initState (some "handle not found")).2, backendCalled := false }
      ∧ AGFS_HandleSync initState 5 =
        { json := errJson (initState.errorIDGen + 1),
          st := (storeError initState (some "handle not found")).2, backendCalled := false }
      ∧ AGFS_HandleStat initState 5 =
        { json := errJson (initState.errorIDGen + 1),
          st := (storeError initState (some "handle not found")).2, backendCalled := false }
      ∧ 0 < initState.errorIDGen + 1
      ∧ (storeError initState (some "handle not found")).2.errorBuffer
          (initState.errorIDGen + 1) = some "handle not found") :=
  ⟨rfl, by decide, by decide,
    missing_handle_ops_fail initState 5 4 0 false [9] 0 rfl (by decide) (by decide)⟩

/-- C5: a backend read error whose message is exactly `"EOF"` is a
successful outcome (code 0, the bytes actually read, state
unchanged), for the path read and for the handle read, exactly as
when the backend returns no error; any other backend read error
yields a nonzero error identifier. -/
theorem read_eof_is_success (st : BindingState) (data data2 data3 : Bytes)
    (e : String) (hid hid2 hid3 : Int) (hndl hndl2 hndl3 : FileHandle)
    (size : Nat) (off : Int) (hasOff : Bool)
    (he : e ≠ "EOF") (h0 : 0 ≤ st.errorIDGen) (h1 : st.errorIDGen < int64Max)
    (hm : st.handleMap hid = some hndl)
    (hr : (if hasOff then hndl.readAtF size off else hndl.readF size) =
      (data, some "EOF"))
    (hm2 : st.handleMap hid2 = some hndl2)
    (hr2 : (if hasOff then hndl2.readAtF size off else hndl2.readF size) =
      (data2, some e))
    (hm3 : st.handleMap hid3 = some hndl3)
    (hr3 : (if hasOff then hndl3.readAtF size off else hndl3.readF size) =
      (data3, none)) :
    AGFS_Read st (data, some "EOF") =
      ((if 0 < data.length then PReadRet.ok (some data) data.length
        else PReadRet.ok none 0), st)
    ∧ AGFS_Read st (data, none) =
      ((if 0 < data.length then PReadRet.ok (some data) data.length
        else PReadRet.ok none 0), st)
    ∧ AGFS_Read st (data2, some e) =
      (PReadRet.err (st.errorIDGen + 1), (storeError st (some e)).2)
    ∧ 0 < st.errorIDGen + 1
    ∧ AGFS_HandleRead st hid size off hasOff =
      { payload := ReadPayload.bytes data, n := data.length, code := 0, st := st,
        backendCalled := true }
    ∧ AGFS_HandleRead st hid3 size off hasOff =
      { payload := ReadPayload.bytes data3, n := data3.length, code := 0, st := st,
        backendCalled := true }
    ∧ AGFS_HandleRead st hid2 size off hasOff =
      { payload := ReadPayload.errJSON (errJson (st.errorIDGen + 1)), n := 0,
        code := -1, st := (storeError st (some e)).2, backendCalled := true } := by
  have hne := storeError_id_eq st e h0 h1
  refine ⟨?_, ?_, ?_, by omega, ?_, ?_, ?_⟩
  · unfold AGFS_Read
    dsimp only
    rw [if_pos rfl]
    split <;> rfl
  · unfold AGFS_Read
    dsimp only
    split <;> rfl
  · unfold AGFS_Read
    dsimp only
    rw [if_neg he, hne]
  · unfold AGFS_HandleRead getHandle
    rw [hm]
    dsimp only
    rw [hr]
    dsimp only
    rw [if_pos rfl]
  · unfold AGFS_HandleRead getHandle
    rw [hm3]
    dsimp only
    rw [hr3]
  · unfold AGFS_HandleRead getHandle
    rw [hm2]
    dsimp only
    rw [hr2]
    dsimp only
    rw [if_neg he, hne]

/-- C5, witness: instantiated with an EOF handle (id 1), a
failing-read handle (id 2) and a clean-read handle (id 3). -/
theorem read_eof_is_success_witness :
    ("boom" : String) ≠ "EOF"
    ∧ 0 ≤ stThreeReaders.errorIDGen
    ∧ stThreeReaders.errorIDGen < int64Max
    ∧ stThreeReaders.handleMap 1 = some eofHandle
    ∧ (if false then eofHandle.readAtF 4 0 else eofHandle.readF 4) =
        ([7, 8], some "EOF")
    ∧ stThreeReaders.handleMap 2 = some errReadHandle
    ∧ (if false then errReadHandle.readAtF 4 0 else errReadHandle.readF 4) =
        ([], some "boom")
    ∧ stThreeReaders.handleMap 3 = some plainReadHandle
    ∧ (if false then plainReadHandle.readAtF 4 0 else plainReadHandle.readF 4) =
        ([1], none)
    ∧ (AGFS_Read stThreeReaders ([7, 8], some "EOF") =
        ((if 0 < ([7, 8] : Bytes).length then PReadRet.ok (some [7, 8]) ([7, 8] : Bytes).length
          else PReadRet.ok none 0), stThreeReaders)
      ∧ AGFS_Read stThreeReaders ([7, 8], none) =
        ((if 0 < ([7, 8] : Bytes).length then PReadRet.ok (some [7, 8]) ([7, 8] : Bytes).length
          else PReadRet.ok none 0), stThreeReaders)
      ∧ AGFS_Read stThreeReaders ([], some "boom") =
        (PReadRet.err (stThreeReaders.errorIDGen + 1),
          (storeError stThreeReaders (some "boom")).2)
      ∧ 0 < stThreeReaders.errorIDGen + 1
      ∧ AGFS_HandleRead stThreeReaders 1 4 0 false =
        { payload := ReadPayload.bytes [7, 8], n := ([7, 8] : Bytes).length, code := 0,
          st := stThreeReaders, backendCalled := true }
      ∧ AGFS_HandleRead stThreeReaders 3 4 0 false =
        { payload := ReadPayload.bytes [1], n := ([1] : Bytes).length, code := 0,
          st := stThreeReaders, backendCalled := true }
      ∧ AGFS_HandleRead stThreeReaders 2 4 0 false =
        { payload := ReadPayload.errJSON (errJson (stThreeReaders.errorIDGen + 1)),
          n := 0, code := -1, st := (storeError stThreeReaders (some "boom")).2,
          backendCalled := true }) :=
  ⟨by decide, by decide, by decide, rfl, rfl, rfl, rfl, rfl, rfl,
    read_eof_is_success stThreeReaders [7, 8] [] [1] "boom" 1 2 3
      eofHandle errReadHandle plainReadHandle 4 0 false
      (by decide) (by decide) (by decide) rfl rfl rfl rfl rfl rfl⟩

/-- C7: every successful metadata-returning operation (path stat,
directory-listing entries, handle stat) returns exactly the field set
name, size, mode, modTime (the RFC3339Nano rendering) and isDir, with
the values taken from the backend metadata. -/
theorem metadata_field_set (st : BindingState) (info : FileInfo)
    (files : List FileInfo) (hid : Int) (hndl : FileHandle)
    (hm : st.handleMap hid = some hndl) (hs : hndl.statF = (info, none)) :
    AGFS_Stat st (Except.ok info) = (statJson info, st)
    ∧ AGFS_Ls st (Except.ok files) =
        (JValue.jobj [("files", JValue.jarr (files.map statJson))], st)
    ∧ AGFS_HandleStat st hid =
        { json := statJson info, st := st, backendCalled := true }
    ∧ jKeys (statJson info) = ["name", "size", "mode", "modTime", "isDir"]
    ∧ jLookup (statJson info) "name" = some (JValue.jstr info.name)
    ∧ jLookup (statJson info) "size" = some (JValue.jint info.size)
    ∧ jLookup (statJson info) "mode" = some (JValue.jint (info.mode : Int))
    ∧ jLookup (statJson info) "modTime" =
        some (JValue.jstr (info.modTime.formatRFC3339Nano))
    ∧ jLookup (statJson info) "isDir" = some (JValue.jbool info.isDir) := by
  refine ⟨rfl, rfl, ?_, ?_, ?_, ?_, ?_, ?_, ?_⟩
  · unfold AGFS_HandleStat getHandle
    rw [hm]
    dsimp only
    rw [hs]
  · rfl
  · simp [jLookup, statJson, List.find?]
  · simp [jLookup, statJson, List.find?]
  · simp [jLookup, statJson, List.find?]
  · simp [jLookup, statJson, List.find?]
  · simp [jLookup, statJson, List.find?]

/-- C7, witness: instantiated with the sample metadata and the stored
handle of id 1. -/
theorem metadata_field_set_witness :
    stOneHandle.handleMap 1 = some okHandle
    ∧ okHandle.statF = (dummyInfo, none)
    ∧ (AGFS_Stat stOneHandle (Except.ok dummyInfo) = (statJson dummyInfo, stOneHandle)
      ∧ AGFS_Ls stOneHandle (Except.ok [dummyInfo]) =
          (JValue.jobj [("files", JValue.jarr ([dummyInfo].map statJson))], stOneHandle)
      ∧ AGFS_HandleStat stOneHandle 1 =
          { json := statJson dummyInfo, st := stOneHandle, backendCalled := true }
      ∧ jKeys (statJson dummyInfo) = ["name", "size", "mode", "modTime", "isDir"]
      ∧ jLookup (statJson dummyInfo) "name" = some (JValue.jstr dummyInfo.name)
      ∧ jLookup (statJson dummyInfo) "size" = some (JValue.jint dummyInfo.size)
      ∧ jLookup (statJson dummyInfo) "mode" = some (JValue.jint (dummyInfo.mode : Int))
      ∧ jLookup (statJson dummyInfo) "modTime" =
          some (JValue.jstr (dummyInfo.modTime.formatRFC3339Nano))
      ∧ jLookup (statJson dummyInfo) "isDir" = some (JValue.jbool dummyInfo.isDir)) :=
  ⟨rfl, rfl, metadata_field_set stOneHandle dummyInfo [dummyInfo] 1 okHandle rfl rfl⟩

/-- C8: a mount request whose configuration string fails to parse as
JSON behaves exactly like a mount with an explicitly empty
configuration: no invalid-argument failure, and `MountPlugin` is
invoked with the empty configuration map. -/
theorem mount_invalid_json_empty_config (st : BindingState) (fsType p e : String)
    (mres : Config → Option String) :
    AGFS_Mount st fsType p (Except.error e) mres =
      AGFS_Mount st fsType p (Except.ok []) mres
    ∧ (AGFS_Mount st fsType p (Except.error e) mres).configPassed = [] := by
  refine ⟨rfl, ?_⟩
  unfold AGFS_Mount
  dsimp only
  cases mres [] <;> rfl

/-- C10: retrieving a stored error is read-once: the first
get-last-error call returns the stored message and deletes the entry,
a second call with the same id returns the empty string, and every
other buffer entry is unchanged. -/
theorem getLastError_read_once (st : BindingState) (id j : Int) (msg : String)
    (hid : id ≠ 0) (hm : st.errorBuffer id = some msg) (hj : j ≠ id) :
    (AGFS_GetLastError st id).1 = msg
    ∧ (AGFS_GetLastError st id).2.errorBuffer id = none
    ∧ (AGFS_GetLastError (AGFS_GetLastError st id).2 id).1 = ""
    ∧ (AGFS_GetLastError st id).2.errorBuffer j = st.errorBuffer j := by
  unfold AGFS_GetLastError getAndClearError
  rw [if_neg hid]
  dsimp only
  rw [hm]
  refine ⟨rfl, by simp, ?_, by simp [hj]⟩
  rw [if_neg hid]
  simp

/-- C10, witness: instantiated in the two-error state at id 1, with
id 2 as the unrelated entry. -/
theorem getLastError_read_once_witness :
    (1 : Int) ≠ 0
    ∧ stTwoErrors.errorBuffer 1 = some "alpha"
    ∧ (2 : Int) ≠ 1
    ∧ ((AGFS_GetLastError stTwoErrors 1).1 = "alpha"
      ∧ (AGFS_GetLastError stTwoErrors 1).2.errorBuffer 1 = none
      ∧ (AGFS_GetLastError (AGFS_GetLastError stTwoErrors 1).2 1).1 = ""
      ∧ (AGFS_GetLastError stTwoErrors 1).2.errorBuffer 2 = stTwoErrors.errorBuffer 2) :=
  ⟨by decide, rfl, by decide,
    getLastError_read_once stTwoErrors 1 2 "alpha" (by decide) rfl (by decide)⟩

/-- C2: after any boundary-call trace from the initial state (shorter
than the `int64` range, so the generator cannot wrap), the issued
handle ids are strictly decreasing newest-first (so every
`storeHandle` returned an id strictly greater than all previously
issued ids), no id is ever reused, the next `storeHandle` again
returns a strictly greater id, and every live table entry's id was
issued. -/
theorem storeHandle_ids_monotonic (ops : List Op)
    (hL : (ops.length : Int) < int64Max) :
    List.Pairwise (· > ·) (run initState ops).issuedHandleIDs
    ∧ (run initState ops).issuedHandleIDs.Nodup
    ∧ (∀ hd : FileHandle, ∀ i ∈ (run initState ops).issuedHandleIDs,
        i < (storeHandle (run initState ops) hd).1)
    ∧ (∀ id : Int, (run initState ops).handleMap id ≠ none →
        id ∈ (run initState ops).issuedHandleIDs) := by
  obtain ⟨hi, hbh, hbe⟩ := reach_inv ops (le_of_lt hL)
  obtain ⟨h1, h2, h3, h4, h5, h6, h7⟩ := hi
  refine ⟨h3, h3.imp (fun h => ne_of_gt h), ?_, h5⟩
  intro hd i hmem
  have hsid : (storeHandle (run initState ops) hd).1 =
      (run initState ops).handleIDGen + 1 :=
    storeHandle_id_eq (run initState ops) hd h1 (by omega)
  have := h4 i hmem
  omega

/-- C2, witness: instantiated at the sample trace. -/
theorem storeHandle_ids_monotonic_witness :
    ((opsSample.length : Int) < int64Max)
    ∧ (List.Pairwise (· > ·) (run initState opsSample).issuedHandleIDs
      ∧ (run initState opsSample).issuedHandleIDs.Nodup
      ∧ (∀ hd : FileHandle, ∀ i ∈ (run initState opsSample).issuedHandleIDs,
          i < (storeHandle (run initState opsSample) hd).1)
      ∧ (∀ id : Int, (run initState opsSample).handleMap id ≠ none →
          id ∈ (run initState opsSample).issuedHandleIDs)) :=
  ⟨by decide, storeHandle_ids_monotonic opsSample (by decide)⟩

/-- C6: after any boundary-call trace from the initial state (shorter
than the `int64` range), the issued error ids are strictly decreasing
newest-first, distinct failures received distinct ids, a further
`storeError` of a non-nil error returns an id strictly greater than
every previously issued one, and the message stored for that id is
retrievable through the get-last-error operation. -/
theorem storeError_ids_monotonic (ops : List Op)
    (hL : (ops.length : Int) < int64Max) :
    List.Pairwise (· > ·) (run initState ops).issuedErrorIDs
    ∧ (run initState ops).issuedErrorIDs.Nodup
    ∧ (∀ msg : String, ∀ i ∈ (run initState ops).issuedErrorIDs,
        i < (storeError (run initState ops) (some msg)).1)
    ∧ (∀ msg : String,
        (AGFS_GetLastError (storeError (run initState ops) (some msg)).2
          (storeError (run initState ops) (some msg)).1).1 = msg) := by
  obtain ⟨hi, hbh, hbe⟩ := reach_inv ops (le_of_lt hL)
  obtain ⟨h1, h2, h3, h4, h5, h6, h7⟩ := hi
  refine ⟨h6, h6.imp (fun h => ne_of_gt h), ?_, ?_⟩
  · intro msg i hmem
    have hsid := storeError_id_eq (run initState ops) msg h2 (by omega)
    have := h7 i hmem
    omega
  · intro msg
    have hsid := storeError_id_eq (run initState ops) msg h2 (by omega)
    have hbuf := storeError_buffer_eq (run initState ops) msg h2 (by omega)
    unfold AGFS_GetLastError getAndClearError
    rw [hsid]
    rw [if_neg (by omega : ¬ (run initState ops).errorIDGen + 1 = 0)]
    dsimp only
    rw [hbuf]
    rfl

/-- C6, witness: instantiated at the sample trace. -/
theorem storeError_ids_monotonic_witness :
    ((opsSample.length : Int) < int64Max)
    ∧ (List.Pairwise (· > ·) (run initState opsSample).issuedErrorIDs
      ∧ (run initState opsSample).issuedErrorIDs.Nodup
      ∧ (∀ msg : String, ∀ i ∈ (run initState opsSample).issuedErrorIDs,
          i < (storeError (run initState opsSample) (some msg)).1)
      ∧ (∀ msg : String,
          (AGFS_GetLastError (storeError (run initState opsSample) (some msg)).2
            (storeError (run initState opsSample) (some msg)).1).1 = msg)) :=
  ⟨by decide, storeError_ids_monotonic opsSample (by decide)⟩

/-- C9: after any boundary-call trace from the initial state (shorter
than the `int64` range), a successful open returns a handle id of at
least 1 — never colliding with the failure sentinel `-1`, which is
exactly what a failed open returns — a stored non-nil error receives
an identifier of at least 1, and retrieving error identifier 0
returns the empty string with the state untouched. -/
theorem id_sentinel_disjoint (ops : List Op)
    (hL : (ops.length : Int) < int64Max) :
    (∀ hd : FileHandle, 1 ≤ (AGFS_OpenHandle (run initState ops) (Except.ok hd)).1)
    ∧ (∀ hd : FileHandle,
        (AGFS_OpenHandle (run initState ops) (Except.ok hd)).1 ≠ -1)
    ∧ (∀ e : String, (AGFS_OpenHandle (run initState ops) (Except.error e)).1 = -1)
    ∧ (∀ msg : String, 1 ≤ (storeError (run initState ops) (some msg)).1)
    ∧ AGFS_GetLastError (run initState ops) 0 = ("", run initState ops) := by
  obtain ⟨hi, hbh, hbe⟩ := reach_inv ops (le_of_lt hL)
  obtain ⟨h1, h2, h3, h4, h5, h6, h7⟩ := hi
  have hopen : ∀ hd : FileHandle,
      (AGFS_OpenHandle (run initState ops) (Except.ok hd)).1 =
        (run initState ops).handleIDGen + 1 :=
    fun hd => storeHandle_id_eq (run initState ops) hd h1 (by omega)
  refine ⟨?_, ?_, ?_, ?_, ?_⟩
  · intro hd
    rw [hopen hd]
    omega
  · intro hd
    rw [hopen hd]
    omega
  · intro e
    rfl
  · intro msg
    rw [storeError_id_eq (run initState ops) msg h2 (by omega)]
    omega
  · unfold AGFS_GetLastError getAndClearError
    rw [if_pos rfl]

/-- C9, witness: instantiated at the sample trace. -/
theorem id_sentinel_disjoint_witness :
    ((opsSample.length : Int) < int64Max)
    ∧ ((∀ hd : FileHandle,
        1 ≤ (AGFS_OpenHandle (run initState opsSample) (Except.ok hd)).1)
      ∧ (∀ hd : FileHandle,
          (AGFS_OpenHandle (run initState opsSample) (Except.ok hd)).1 ≠ -1)
      ∧ (∀ e : String,
          (AGFS_OpenHandle (run initState opsSample) (Except.error e)).1 = -1)
      ∧ (∀ msg : String, 1 ≤ (storeError (run initState opsSample) (some msg)).1)
      ∧ AGFS_GetLastError (run initState opsSample) 0 = ("", run initState opsSample)) :=
  ⟨by decide, id_sentinel_disjoint opsSample (by decide)⟩

end AGFS
